import Mathlib

/-!
# Verification of the REBA scoring engine

Shallow embedding of the REBA (Rapid Entire Body Assessment) web application.
The canonical, self-contained scoring engine is the script embedded in
`src/reba/static/style.css` (angle utilities, Table A/B/C lookups, the
`calc*` sub-score helpers, `getFinalREBAScore`, `getRiskLevel`); a partially
divergent duplicate of some functions lives in `src/script.js` (embedded
below under the `ScriptJS` namespace), and the session tracker lives in
`src/reba/static/script.js` (embedded under `SessionTracker`).

Numeric values that are JS numbers are modelled over an arbitrary linear
ordered field, instantiated at `ℚ` for executable witnesses and at `ℝ` where
landmark geometry (square roots, inverse trigonometry) is involved.
Integer-valued scores are modelled as `ℤ`.
-/

namespace REBA

/-- A pose landmark point, `{x, y, z}` as delivered by the pose estimator. -/
structure Pt where
  x : ℝ
  y : ℝ
  z : ℝ

/-- A 2D vector `{x, y}` as used by the angle utilities. -/
structure Vec2 where
  x : ℝ
  y : ℝ

/-- `calculateAngle(A, B, C)` from the source: the angle at vertex `B`
between rays `B→A` and `B→C`, via the dot-product/arccos formula, in
degrees. -/
noncomputable def calculateAngle (A B C : Pt) : ℝ :=
  let AB : Vec2 := ⟨A.x - B.x, A.y - B.y⟩
  let CB : Vec2 := ⟨C.x - B.x, C.y - B.y⟩
  let dot := AB.x * CB.x + AB.y * CB.y
  let normAB := Real.sqrt (AB.x ^ 2 + AB.y ^ 2)
  let normCB := Real.sqrt (CB.x ^ 2 + CB.y ^ 2)
  let angleRad := Real.arccos (dot / (normAB * normCB))
  angleRad * (180 / Real.pi)

/-- `angleWithVertical(vector)` from the source: angle between a 2D vector
and the downward image-vertical axis `(0, -1)`, in degrees. -/
noncomputable def angleWithVertical (vector : Vec2) : ℝ :=
  let vertical : Vec2 := ⟨0, -1⟩
  let dot := vector.x * vertical.x + vector.y * vertical.y
  let norm := Real.sqrt (vector.x ^ 2 + vector.y ^ 2)
  let angleRad := Real.arccos (dot / norm)
  angleRad * (180 / Real.pi)

/-- Model of JS `Math.atan2(y, x)` (used only for the trunk-rotation angle),
with the usual quadrant convention. -/
noncomputable def atan2 (y x : ℝ) : ℝ :=
  if 0 < x then Real.arctan (y / x)
  else if x < 0 ∧ 0 ≤ y then Real.arctan (y / x) + Real.pi
  else if x < 0 ∧ y < 0 then Real.arctan (y / x) - Real.pi
  else if x = 0 ∧ 0 < y then Real.pi / 2
  else if x = 0 ∧ y < 0 then -(Real.pi / 2)
  else 0

/-- The joint-angle record returned by `computeAllAngles`. -/
structure ComputedAngles (α : Type) where
  neckAngle : α
  trunkFlexionAngle : α
  trunkRotationAngle : α
  leftShoulderAngle : α
  rightShoulderAngle : α
  leftElbowAngle : α
  rightElbowAngle : α
  leftWristAngle : α
  rightWristAngle : α
  leftKneeAngle : α
  rightKneeAngle : α

/-- The calibration-input record assembled by `getCalibrationInputs` in
`src/reba/static/style.css` (radio-button values; numbers become `ℤ`/`α`,
categorical values stay strings). -/
structure CalibInputs (α : Type) where
  filmingSide : String
  neckRotation : ℤ
  neckLateralBending : ℤ
  trunkLateralFlexion : ℤ
  loadForce : α
  postureCategory : String
  upperArmCorrection : ℤ
  shoulderElevation : ℤ
  gravityAssist : ℤ
  wristCorrection : ℤ
  staticPosture : ℤ
  repetitiveMovement : ℤ
  unstableMovement : ℤ
  coupling : ℤ

/-- The required landmark indices checked by `computeAllAngles`, in source
order: `[0,11,13,15,19,23,25,27,12,14,16,20,24,26,28]`. -/
def requiredLandmarks : List ℕ := [0, 11, 13, 15, 19, 23, 25, 27, 12, 14, 16, 20, 24, 26, 28]

/-- `computeAllAngles(landmarks, filmingSide)` from `src/script.js`: returns
`null` (here `none`) when any required landmark is missing, otherwise the
full joint-angle record. The landmark array is modelled as a partial map
from indices; the `.getD` default inside the success branch is dead code
because every required index was checked to be present. -/
noncomputable def computeAllAngles (landmarks : ℕ → Option Pt) (filmingSide : String) :
    Option (ComputedAngles ℝ) :=
  if requiredLandmarks.all fun idx => (landmarks idx).isSome then
    let lm : ℕ → Pt := fun idx => (landmarks idx).getD ⟨0, 0, 0⟩
    let shoulderCenter : Pt :=
      ⟨((lm 11).x + (lm 12).x) / 2, ((lm 11).y + (lm 12).y) / 2, 0⟩
    let nose := lm 0
    let neckVector : Vec2 := ⟨nose.x - shoulderCenter.x, nose.y - shoulderCenter.y⟩
    let neckAngle := angleWithVertical neckVector
    let trunkShoulderIndex : ℕ := if filmingSide = "left" then 11 else 12
    let trunkHipIndex : ℕ := if filmingSide = "left" then 23 else 24
    let trunkVector : Vec2 :=
      ⟨(lm trunkHipIndex).x - (lm trunkShoulderIndex).x,
       (lm trunkHipIndex).y - (lm trunkShoulderIndex).y⟩
    let trunkFlexionAngle := angleWithVertical trunkVector
    let shoulderRotationAngle :=
      atan2 ((lm 12).y - (lm 11).y) ((lm 12).x - (lm 11).x) * (180 / Real.pi)
    let hipRotationAngle :=
      atan2 ((lm 24).y - (lm 23).y) ((lm 24).x - (lm 23).x) * (180 / Real.pi)
    some
      { neckAngle := neckAngle
        trunkFlexionAngle := trunkFlexionAngle
        trunkRotationAngle := shoulderRotationAngle - hipRotationAngle
        leftShoulderAngle := calculateAngle (lm 23) (lm 11) (lm 13)
        rightShoulderAngle := calculateAngle (lm 24) (lm 12) (lm 14)
        leftElbowAngle := calculateAngle (lm 11) (lm 13) (lm 15)
        rightElbowAngle := calculateAngle (lm 12) (lm 14) (lm 16)
        leftWristAngle := calculateAngle (lm 13) (lm 15) (lm 19)
        rightWristAngle := calculateAngle (lm 14) (lm 16) (lm 20)
        leftKneeAngle := calculateAngle (lm 23) (lm 25) (lm 27)
        rightKneeAngle := calculateAngle (lm 24) (lm 26) (lm 28) }
  else none

section Engine

variable {α : Type} [LinearOrderedField α]

/-- `calcNeckScore(neckAngle, rotationFlag, sideBendFlag)`. -/
def calcNeckScore (neckAngle : α) (rotationFlag sideBendFlag : Bool) : ℤ :=
  (if neckAngle ≤ 20 then 1 else 2) + (if rotationFlag || sideBendFlag then 1 else 0)

/-- `calcTrunkScore(trunkFlexAngle, rotationFlag, sideBendFlag)`. -/
def calcTrunkScore (trunkFlexAngle : α) (rotationFlag sideBendFlag : Bool) : ℤ :=
  (if trunkFlexAngle = 0 then 1
   else if trunkFlexAngle ≤ 20 then 2
   else if trunkFlexAngle ≤ 60 then 3
   else 4) +
  (if rotationFlag || sideBendFlag then 1 else 0)

/-- `calcLegScoreUnified(postureCategory, kneeFlexAngle)`. -/
def calcLegScoreUnified (postureCategory : String) (kneeFlexAngle : α) : ℤ :=
  if postureCategory = "sittingWalking" then 1
  else
    (if postureCategory = "standingBoth" then 1 else 2) +
    (if kneeFlexAngle ≥ 30 ∧ kneeFlexAngle ≤ 60 then 1
     else if kneeFlexAngle > 60 then 2
     else 0)

/-- `calcUpperArmScore(upperArmAngle, upperArmCorrection, shoulderElevation, gravityAssist)`. -/
def calcUpperArmScore (upperArmAngle : α)
    (upperArmCorrection shoulderElevation gravityAssist : ℤ) : ℤ :=
  let absAngle := |upperArmAngle|
  let base : ℤ :=
    if absAngle ≤ 20 then 1
    else if absAngle ≤ 45 then 2
    else if absAngle ≤ 90 then 3
    else 4
  let corrected := base + upperArmCorrection + shoulderElevation + gravityAssist
  if corrected < 1 then 1
  else if corrected > 6 then 6
  else corrected

/-- `calcForearmScore(elbowAngle)`. -/
def calcForearmScore (elbowAngle : α) : ℤ :=
  if elbowAngle ≥ 60 ∧ elbowAngle ≤ 100 then 1 else 2

/-- `calcWristScore(wristAngle, wristCorrection)`. -/
def calcWristScore (wristAngle : α) (wristCorrection : ℤ) : ℤ :=
  let base : ℤ := if wristAngle > 15 then 2 else 1
  let score := base + wristCorrection
  if score < 1 then 1
  else if score > 3 then 3
  else score

/-- `calcLoadScore(loadKg)`: 0 below 5 kg, 1 for 5–10 kg, 2 above 10 kg. -/
def calcLoadScore (loadKg : α) : ℤ :=
  if loadKg < 5 then 0
  else if loadKg ≤ 10 then 1
  else 2

end Engine

/-- Table A of `src/reba/static/style.css` (identical to the copy in
`src/script.js`): key `(trunk, neck, leg)`. -/
def tableA_Lookup : List ((ℤ × ℤ × ℤ) × ℤ) :=[
  ((1, 1, 1), 1), ((1, 1, 2), 2), ((1, 1, 3), 3), ((1, 1, 4), 4),
  ((1, 2, 1), 1), ((1, 2, 2), 2), ((1, 2, 3), 3), ((1, 2, 4), 4),
  ((1, 3, 1), 3), ((1, 3, 2), 3), ((1, 3, 3), 5), ((1, 3, 4), 6),
  ((2, 1, 1), 2), ((2, 1, 2), 3), ((2, 1, 3), 4), ((2, 1, 4), 5),
  ((2, 2, 1), 3), ((2, 2, 2), 4), ((2, 2, 3), 5), ((2, 2, 4), 6),
  ((2, 3, 1), 4), ((2, 3, 2), 5), ((2, 3, 3), 6), ((2, 3, 4), 7),
  ((3, 1, 1), 2), ((3, 1, 2), 4), ((3, 1, 3), 5), ((3, 1, 4), 6),
  ((3, 2, 1), 4), ((3, 2, 2), 5), ((3, 2, 3), 6), ((3, 2, 4), 7),
  ((3, 3, 1), 5), ((3, 3, 2), 6), ((3, 3, 3), 7), ((3, 3, 4), 8),
  ((4, 1, 1), 3), ((4, 1, 2), 5), ((4, 1, 3), 6), ((4, 1, 4), 7),
  ((4, 2, 1), 5), ((4, 2, 2), 6), ((4, 2, 3), 7), ((4, 2, 4), 8),
  ((4, 3, 1), 6), ((4, 3, 2), 7), ((4, 3, 3), 8), ((4, 3, 4), 9),
  ((5, 1, 1), 4), ((5, 1, 2), 6), ((5, 1, 3), 7), ((5, 1, 4), 8),
  ((5, 2, 1), 6), ((5, 2, 2), 7), ((5, 2, 3), 8), ((5, 2, 4), 9),
  ((5, 3, 1), 7), ((5, 3, 2), 8), ((5, 3, 3), 9), ((5, 3, 4), 9)]

/-- `getScoreA(trunk, neck, leg, loadKg)` of `src/reba/static/style.css`:
Table A lookup (`?? 1` modelled by `Option.getD 1`) plus the load score. -/
def getScoreA {α : Type} [LinearOrderedField α]
    (trunk neck leg : ℤ) (loadKg : α) : ℤ :=
  let base := (tableA_Lookup.lookup (trunk, neck, leg)).getD 1
  base + calcLoadScore loadKg

/-- Table B of `src/reba/static/style.css`: key `(upperArm, forearm, wrist)`. -/
def tableB_Lookup : List ((ℤ × ℤ × ℤ) × ℤ) :=[
  ((1, 1, 1), 1), ((1, 1, 2), 2), ((1, 1, 3), 2),
  ((1, 2, 1), 1), ((1, 2, 2), 2), ((1, 2, 3), 3),
  ((2, 1, 1), 1), ((2, 1, 2), 2), ((2, 1, 3), 3),
  ((2, 2, 1), 2), ((2, 2, 2), 3), ((2, 2, 3), 4),
  ((3, 1, 1), 3), ((3, 1, 2), 4), ((3, 1, 3), 5),
  ((3, 2, 1), 4), ((3, 2, 2), 5), ((3, 2, 3), 5),
  ((4, 1, 1), 4), ((4, 1, 2), 5), ((4, 1, 3), 5),
  ((4, 2, 1), 5), ((4, 2, 2), 6), ((4, 2, 3), 7),
  ((5, 1, 1), 6), ((5, 1, 2), 7), ((5, 1, 3), 8),
  ((5, 2, 1), 7), ((5, 2, 2), 8), ((5, 2, 3), 8),
  ((6, 1, 1), 7), ((6, 1, 2), 8), ((6, 1, 3), 8),
  ((6, 2, 1), 8), ((6, 2, 2), 9), ((6, 2, 3), 9)]

/-- `getScoreB(upperArm, forearm, wrist, coupling)`. -/
def getScoreB (upperArm forearm wrist coupling : ℤ) : ℤ :=
  let base := (tableB_Lookup.lookup (upperArm, forearm, wrist)).getD 1
  base + coupling

/-- Table C of `src/reba/static/style.css` (12×12): key `(scoreA, scoreB)`. -/
def tableC_Lookup : List ((ℤ × ℤ) × ℤ) :=[
  ((1, 1), 1), ((1, 2), 1), ((1, 3), 1), ((1, 4), 2),
  ((1, 5), 3), ((1, 6), 3), ((1, 7), 4), ((1, 8), 5),
  ((1, 9), 6), ((1, 10), 7), ((1, 11), 7), ((1, 12), 7),
  ((2, 1), 1), ((2, 2), 2), ((2, 3), 2), ((2, 4), 3),
  ((2, 5), 4), ((2, 6), 4), ((2, 7), 5), ((2, 8), 6),
  ((2, 9), 6), ((2, 10), 7), ((2, 11), 7), ((2, 12), 8),
  ((3, 1), 2), ((3, 2), 3), ((3, 3), 3), ((3, 4), 4),
  ((3, 5), 5), ((3, 6), 6), ((3, 7), 7), ((3, 8), 7),
  ((3, 9), 7), ((3, 10), 8), ((3, 11), 8), ((3, 12), 8),
  ((4, 1), 3), ((4, 2), 4), ((4, 3), 4), ((4, 4), 4),
  ((4, 5), 5), ((4, 6), 6), ((4, 7), 7), ((4, 8), 8),
  ((4, 9), 8), ((4, 10), 9), ((4, 11), 9), ((4, 12), 9),
  ((5, 1), 4), ((5, 2), 4), ((5, 3), 4), ((5, 4), 5),
  ((5, 5), 6), ((5, 6), 7), ((5, 7), 8), ((5, 8), 8),
  ((5, 9), 9), ((5, 10), 9), ((5, 11), 9), ((5, 12), 9),
  ((6, 1), 6), ((6, 2), 6), ((6, 3), 6), ((6, 4), 7),
  ((6, 5), 8), ((6, 6), 8), ((6, 7), 9), ((6, 8), 9),
  ((6, 9), 10), ((6, 10), 10), ((6, 11), 10), ((6, 12), 10),
  ((7, 1), 7), ((7, 2), 7), ((7, 3), 7), ((7, 4), 8),
  ((7, 5), 9), ((7, 6), 9), ((7, 7), 9), ((7, 8), 10),
  ((7, 9), 10), ((7, 10), 11), ((7, 11), 11), ((7, 12), 11),
  ((8, 1), 8), ((8, 2), 8), ((8, 3), 8), ((8, 4), 9),
  ((8, 5), 10), ((8, 6), 10), ((8, 7), 10), ((8, 8), 10),
  ((8, 9), 11), ((8, 10), 11), ((8, 11), 11), ((8, 12), 12),
  ((9, 1), 9), ((9, 2), 9), ((9, 3), 9), ((9, 4), 10),
  ((9, 5), 10), ((9, 6), 11), ((9, 7), 11), ((9, 8), 11),
  ((9, 9), 12), ((9, 10), 12), ((9, 11), 12), ((9, 12), 12),
  ((10, 1), 10), ((10, 2), 10), ((10, 3), 10), ((10, 4), 11),
  ((10, 5), 11), ((10, 6), 11), ((10, 7), 12), ((10, 8), 12),
  ((10, 9), 12), ((10, 10), 12), ((10, 11), 12), ((10, 12), 12),
  ((11, 1), 11), ((11, 2), 11), ((11, 3), 11), ((11, 4), 12),
  ((11, 5), 12), ((11, 6), 12), ((11, 7), 12), ((11, 8), 12),
  ((11, 9), 12), ((11, 10), 12), ((11, 11), 12), ((11, 12), 12),
  ((12, 1), 12), ((12, 2), 12), ((12, 3), 12), ((12, 4), 12),
  ((12, 5), 12), ((12, 6), 12), ((12, 7), 12), ((12, 8), 12),
  ((12, 9), 12), ((12, 10), 12), ((12, 11), 12), ((12, 12), 12)]

/-- `getTableCScore(scoreA, scoreB)`: the JS `tableC_Lookup[key] || 1` is
modelled by `Option.getD 1` (all table values are nonzero, so `||` only
fires on a missing key). -/
def getTableCScore (scoreA scoreB : ℤ) : ℤ :=
  (tableC_Lookup.lookup (scoreA, scoreB)).getD 1

section Evaluate

variable {α : Type} [LinearOrderedField α]

/-- `evaluateTrunk(computedAngles, calibInputs)`: rotation flag when
`|trunkRotationAngle| >= 10`, side-bend flag when `trunkLateralFlexion > 0`. -/
def evaluateTrunk (computedAngles : ComputedAngles α) (calibInputs : CalibInputs α) : ℤ :=
  let rotationFlag := decide (10 ≤ |computedAngles.trunkRotationAngle|)
  let sideBendFlag := decide (0 < calibInputs.trunkLateralFlexion)
  calcTrunkScore computedAngles.trunkFlexionAngle rotationFlag sideBendFlag

/-- `evaluateNeck(computedAngles, calibInputs)`. -/
def evaluateNeck (computedAngles : ComputedAngles α) (calibInputs : CalibInputs α) : ℤ :=
  let rotationFlag := decide (0 < calibInputs.neckRotation)
  let sideBendFlag := decide (0 < calibInputs.neckLateralBending)
  calcNeckScore computedAngles.neckAngle rotationFlag sideBendFlag

/-- `evaluateLeg(computedAngles, calibInputs)`: averages the two knee angles. -/
def evaluateLeg (computedAngles : ComputedAngles α) (calibInputs : CalibInputs α) : ℤ :=
  let avgKnee := (computedAngles.leftKneeAngle + computedAngles.rightKneeAngle) / 2
  calcLegScoreUnified calibInputs.postureCategory avgKnee

/-- `evaluateUpperArm(computedAngles, calibInputs)`: averages the shoulders. -/
def evaluateUpperArm (computedAngles : ComputedAngles α) (calibInputs : CalibInputs α) : ℤ :=
  let avg := (computedAngles.leftShoulderAngle + computedAngles.rightShoulderAngle) / 2
  calcUpperArmScore avg calibInputs.upperArmCorrection calibInputs.shoulderElevation
    calibInputs.gravityAssist

/-- `evaluateForearm(computedAngles)`: averages the elbows. -/
def evaluateForearm (computedAngles : ComputedAngles α) : ℤ :=
  let avg := (computedAngles.leftElbowAngle + computedAngles.rightElbowAngle) / 2
  calcForearmScore avg

/-- `evaluateWrist(computedAngles, calibInputs)`: averages the wrists. -/
def evaluateWrist (computedAngles : ComputedAngles α) (calibInputs : CalibInputs α) : ℤ :=
  let avg := (computedAngles.leftWristAngle + computedAngles.rightWristAngle) / 2
  calcWristScore avg calibInputs.wristCorrection

/-- `evaluateActivity(calibInputs)`: sum of the three activity inputs. -/
def evaluateActivity (calibInputs : CalibInputs α) : ℤ :=
  calibInputs.staticPosture + calibInputs.repetitiveMovement + calibInputs.unstableMovement

/-- `getFinalREBAScore(computedAngles, calibInputs)` of
`src/reba/static/style.css`: Table C of (score A, score B), plus the
activity score, then the two clamping statements `if (finalScore > 15)`
and `if (finalScore < 1)` in source order. -/
def getFinalREBAScore (computedAngles : ComputedAngles α) (calibInputs : CalibInputs α) : ℤ :=
  let trunkScore := evaluateTrunk computedAngles calibInputs
  let neckScore := evaluateNeck computedAngles calibInputs
  let legScore := evaluateLeg computedAngles calibInputs
  let scoreA := getScoreA trunkScore neckScore legScore calibInputs.loadForce
  let upperArmScore := evaluateUpperArm computedAngles calibInputs
  let forearmScore := evaluateForearm computedAngles
  let wristScore := evaluateWrist computedAngles calibInputs
  let scoreB := getScoreB upperArmScore forearmScore wristScore calibInputs.coupling
  let tableCScore := getTableCScore scoreA scoreB
  let activityScore := evaluateActivity calibInputs
  let finalScore := tableCScore + activityScore
  let finalScore := if finalScore > 15 then 15 else finalScore
  let finalScore := if finalScore < 1 then 1 else finalScore
  finalScore

end Evaluate

/-- `getRiskLevel(score)` (identical in `src/script.js` and
`src/reba/static/style.css`). -/
def getRiskLevel (score : ℤ) : String :=
  if score = 1 then "無視できる"
  else if 2 ≤ score ∧ score ≤ 3 then "低リスク"
  else if 4 ≤ score ∧ score ≤ 7 then "中リスク"
  else if 8 ≤ score ∧ score ≤ 10 then "高リスク"
  else "非常に高リスク"

/-- `getRiskLevelText(score)` from `src/reba/static/script.js`. -/
def getRiskLevelText (score : ℤ) : String :=
  if score ≤ 0 then "N/A"
  else if score = 1 then "無視できる (Negligible)"
  else if score ≤ 3 then "低リスク (Low)"
  else if score ≤ 7 then "中リスク (Medium)"
  else if score ≤ 10 then "高リスク (High)"
  else "非常に高リスク (Very High)"

/-- The record returned by `calibrateREBAAngles` in
`src/reba/static/style.css`: the eleven (possibly knee-overridden) angles
followed by the external calibration fields, copied through. -/
structure CalibratedAngles (α : Type) where
  neckAngle : α
  trunkFlexionAngle : α
  trunkRotationAngle : α
  leftShoulderAngle : α
  rightShoulderAngle : α
  leftElbowAngle : α
  rightElbowAngle : α
  leftWristAngle : α
  rightWristAngle : α
  leftKneeAngle : α
  rightKneeAngle : α
  neckRotation : ℤ
  neckLateralBending : ℤ
  trunkLateralFlexion : ℤ
  loadForce : α
  postureCategory : String
  upperArmCorrection : ℤ
  shoulderElevation : ℤ
  gravityAssist : ℤ
  wristCorrection : ℤ
  staticPosture : ℤ
  repetitiveMovement : ℤ
  unstableMovement : ℤ
  coupling : ℤ

/-- `calibrateREBAAngles(computedAngles, calibInputs)` from
`src/reba/static/style.css`: both knee angles are overridden to the
constant `1` when `postureCategory === "sittingWalking"`; every other
field is copied unchanged. -/
def calibrateREBAAngles {α : Type} [LinearOrderedField α]
    (computedAngles : ComputedAngles α) (calibInputs : CalibInputs α) :
    CalibratedAngles α :=
  let finalLeftKneeAngle :=
    if calibInputs.postureCategory = "sittingWalking" then 1
    else computedAngles.leftKneeAngle
  let finalRightKneeAngle :=
    if calibInputs.postureCategory = "sittingWalking" then 1
    else computedAngles.rightKneeAngle
  { neckAngle := computedAngles.neckAngle
    trunkFlexionAngle := computedAngles.trunkFlexionAngle
    trunkRotationAngle := computedAngles.trunkRotationAngle
    leftShoulderAngle := computedAngles.leftShoulderAngle
    rightShoulderAngle := computedAngles.rightShoulderAngle
    leftElbowAngle := computedAngles.leftElbowAngle
    rightElbowAngle := computedAngles.rightElbowAngle
    leftWristAngle := computedAngles.leftWristAngle
    rightWristAngle := computedAngles.rightWristAngle
    leftKneeAngle := finalLeftKneeAngle
    rightKneeAngle := finalRightKneeAngle
    neckRotation := calibInputs.neckRotation
    neckLateralBending := calibInputs.neckLateralBending
    trunkLateralFlexion := calibInputs.trunkLateralFlexion
    loadForce := calibInputs.loadForce
    postureCategory := calibInputs.postureCategory
    upperArmCorrection := calibInputs.upperArmCorrection
    shoulderElevation := calibInputs.shoulderElevation
    gravityAssist := calibInputs.gravityAssist
    wristCorrection := calibInputs.wristCorrection
    staticPosture := calibInputs.staticPosture
    repetitiveMovement := calibInputs.repetitiveMovement
    unstableMovement := calibInputs.unstableMovement
    coupling := calibInputs.coupling }

namespace ScriptJS

/-- The calibration-input record of `src/script.js` (`getCalibrationInputs`
there): it uses `postureType` (values `"sitting"` / `"walking"` /
standing values) and `weightBearing`, and has no `coupling` field. -/
structure CalibInputs (α : Type) where
  filmingSide : String
  neckRotation : ℤ
  neckLateralBending : ℤ
  trunkLateralFlexion : ℤ
  loadForce : α
  weightBearing : String
  upperArmCorrection : ℤ
  shoulderElevation : ℤ
  gravityAssist : ℤ
  wristCorrection : ℤ
  staticPosture : ℤ
  repetitiveMovement : ℤ
  unstableMovement : ℤ
  postureType : String

/-- The record returned by `calibrateREBAAngles` in `src/script.js`. -/
structure CalibratedAngles (α : Type) where
  neckAngle : α
  trunkFlexionAngle : α
  trunkRotationAngle : α
  leftShoulderAngle : α
  rightShoulderAngle : α
  leftElbowAngle : α
  rightElbowAngle : α
  leftWristAngle : α
  rightWristAngle : α
  leftKneeAngle : α
  rightKneeAngle : α
  neckRotation : ℤ
  neckLateralBending : ℤ
  trunkLateralFlexion : ℤ
  loadForce : α
  weightBearing : String
  upperArmCorrection : ℤ
  shoulderElevation : ℤ
  gravityAssist : ℤ
  wristCorrection : ℤ
  staticPosture : ℤ
  repetitiveMovement : ℤ
  unstableMovement : ℤ
  postureType : String

/-- `calibrateREBAAngles(computedAngles, calibInputs)` from `src/script.js`
(lines 167–201): knee angles overridden to `1` when `postureType` is
`"sitting"` or `"walking"`, all other fields copied unchanged. -/
def calibrateREBAAngles {α : Type} [LinearOrderedField α]
    (computedAngles : ComputedAngles α) (calibInputs : CalibInputs α) :
    CalibratedAngles α :=
  let finalLeftKneeAngle :=
    if calibInputs.postureType = "sitting" ∨ calibInputs.postureType = "walking" then 1
    else computedAngles.leftKneeAngle
  let finalRightKneeAngle :=
    if calibInputs.postureType = "sitting" ∨ calibInputs.postureType = "walking" then 1
    else computedAngles.rightKneeAngle
  { neckAngle := computedAngles.neckAngle
    trunkFlexionAngle := computedAngles.trunkFlexionAngle
    trunkRotationAngle := computedAngles.trunkRotationAngle
    leftShoulderAngle := computedAngles.leftShoulderAngle
    rightShoulderAngle := computedAngles.rightShoulderAngle
    leftElbowAngle := computedAngles.leftElbowAngle
    rightElbowAngle := computedAngles.rightElbowAngle
    leftWristAngle := computedAngles.leftWristAngle
    rightWristAngle := computedAngles.rightWristAngle
    leftKneeAngle := finalLeftKneeAngle
    rightKneeAngle := finalRightKneeAngle
    neckRotation := calibInputs.neckRotation
    neckLateralBending := calibInputs.neckLateralBending
    trunkLateralFlexion := calibInputs.trunkLateralFlexion
    loadForce := calibInputs.loadForce
    weightBearing := calibInputs.weightBearing
    upperArmCorrection := calibInputs.upperArmCorrection
    shoulderElevation := calibInputs.shoulderElevation
    gravityAssist := calibInputs.gravityAssist
    wristCorrection := calibInputs.wristCorrection
    staticPosture := calibInputs.staticPosture
    repetitiveMovement := calibInputs.repetitiveMovement
    unstableMovement := calibInputs.unstableMovement
    postureType := calibInputs.postureType }

/-- `getScoreA(trunkScore, neckScore, legScore, loadForce)` from
`src/script.js` (lines 224–230): `min((T + N + L) - 2, 8)` plus an inline
load score computed by the equality tests `loadForce === 5 ? 0 :
(loadForce === 10 ? 1 : 2)` — it does not consult `tableA_Lookup`. -/
def getScoreA {α : Type} [LinearOrderedField α]
    (trunkScore neckScore legScore : ℤ) (loadForce : α) : ℤ :=
  let base := trunkScore + neckScore + legScore - 2
  let base := if base > 8 then 8 else base
  let loadScore : ℤ := if loadForce = 5 then 0 else if loadForce = 10 then 1 else 2
  base + loadScore

end ScriptJS

namespace SessionTracker

/-- The session state of `src/reba/static/script.js`: the recording flag
and the running maximum REBA score (`maxRebaScore`, initially 0). -/
structure SessionState where
  webcamRunning : Bool
  maxRebaScore : ℤ

/-- The `webcamButton` click listener: toggles `webcamRunning`; on start
(`webcamRunning` became true) it resets `maxRebaScore = 0`, on stop it
only displays the retained maximum. -/
def webcamButtonClick (st : SessionState) : SessionState :=
  let running := !st.webcamRunning
  if running then { webcamRunning := running, maxRebaScore := 0 }
  else { webcamRunning := running, maxRebaScore := st.maxRebaScore }

/-- The API success handler inside `predictWebcam`:
`if (data.final_score > maxRebaScore) maxRebaScore = data.final_score`. -/
def receiveFinalScore (st : SessionState) (finalScore : ℤ) : SessionState :=
  if finalScore > st.maxRebaScore then { st with maxRebaScore := finalScore } else st

end SessionTracker

/-- The per-landmark-set body of `predictWebcam`: when `computeAllAngles`
returns `null` no score/risk pair is produced for the tick (only a console
warning); otherwise the final score and its risk level are produced. -/
noncomputable def processLandmarkSet (landmarks : ℕ → Option Pt) (calibInputs : CalibInputs ℝ) :
    Option (ℤ × String) :=
  match computeAllAngles landmarks calibInputs.filmingSide with
  | some computedAngles =>
      some (getFinalREBAScore computedAngles calibInputs,
            getRiskLevel (getFinalREBAScore computedAngles calibInputs))
  | none => none

/-! ## Theorems for the claims -/

/-- C1: For every joint-angle record and every calibration input, the final
REBA score returned by `getFinalREBAScore` equals the Table C result plus
the activity score saturated into `[1, 15]`; in particular
`1 ≤ finalScore ≤ 15` always holds, and a composition exceeding 15
saturates to 15 rather than wrapping or erroring. -/
theorem getFinalREBAScore_clamped (a : ComputedAngles ℚ) (c : CalibInputs ℚ) :
    getFinalREBAScore a c =
      max 1 (min 15
        (getTableCScore
            (getScoreA (evaluateTrunk a c) (evaluateNeck a c) (evaluateLeg a c) c.loadForce)
            (getScoreB (evaluateUpperArm a c) (evaluateForearm a) (evaluateWrist a c)
              c.coupling) +
          evaluateActivity c)) ∧
    1 ≤ getFinalREBAScore a c ∧ getFinalREBAScore a c ≤ 15 ∧
    (15 <
        getTableCScore
            (getScoreA (evaluateTrunk a c) (evaluateNeck a c) (evaluateLeg a c) c.loadForce)
            (getScoreB (evaluateUpperArm a c) (evaluateForearm a) (evaluateWrist a c)
              c.coupling) +
          evaluateActivity c →
      getFinalREBAScore a c = 15) := by
  simp only [getFinalREBAScore]
  set x :=
    getTableCScore
        (getScoreA (evaluateTrunk a c) (evaluateNeck a c) (evaluateLeg a c) c.loadForce)
        (getScoreB (evaluateUpperArm a c) (evaluateForearm a) (evaluateWrist a c)
          c.coupling) +
      evaluateActivity c with hx
  rw [max_def, min_def]
  split_ifs <;> omega

/-- Concrete joint angles for the claim witnesses (all angles zero). -/
def wAngles : ComputedAngles ℚ :=
  { neckAngle := 0, trunkFlexionAngle := 0, trunkRotationAngle := 0,
    leftShoulderAngle := 0, rightShoulderAngle := 0, leftElbowAngle := 0,
    rightElbowAngle := 0, leftWristAngle := 0, rightWristAngle := 0,
    leftKneeAngle := 0, rightKneeAngle := 0 }

/-- Concrete calibration inputs with an oversized static-posture activity
value, driving the pre-clamp composition above 15. -/
def wCalibBig : CalibInputs ℚ :=
  { filmingSide := "left", neckRotation := 0, neckLateralBending := 0,
    trunkLateralFlexion := 0, loadForce := 0, postureCategory := "standingBoth",
    upperArmCorrection := 0, shoulderElevation := 0, gravityAssist := 0,
    wristCorrection := 0, staticPosture := 20, repetitiveMovement := 0,
    unstableMovement := 0, coupling := 0 }

/-- Witness for C1: a composition whose Table C + activity total exceeds 15
saturates to exactly 15. -/
theorem getFinalREBAScore_clamped_witness : getFinalREBAScore wAngles wCalibBig = 15 := by
  have hT : evaluateTrunk wAngles wCalibBig = 1 := by decide
  have hN : evaluateNeck wAngles wCalibBig = 1 := by decide
  have hL : evaluateLeg wAngles wCalibBig = 1 := by
    norm_num [evaluateLeg, calcLegScoreUnified, wAngles, wCalibBig]
  have hU : evaluateUpperArm wAngles wCalibBig = 1 := by
    norm_num [evaluateUpperArm, calcUpperArmScore, wAngles, wCalibBig]
  have hF : evaluateForearm wAngles = 2 := by
    norm_num [evaluateForearm, calcForearmScore, wAngles]
  have hW : evaluateWrist wAngles wCalibBig = 1 := by
    norm_num [evaluateWrist, calcWristScore, wAngles, wCalibBig]
  refine (getFinalREBAScore_clamped wAngles wCalibBig).2.2.2 ?_
  rw [hT, hN, hL, hU, hF, hW]
  decide

/-- C2 counterexample: in `src/script.js`, `getScoreA(3, 1, 1, 10)` returns
`min(3+1+1-2, 8) + 1 = 4`, while the Table A constant at `(3,1,1)` is `2`
(so lookup plus the 10 kg load correction 1 would give 3, not 4): the
script.js Group A score is an arithmetic formula, not the table lookup. -/
theorem scriptGetScoreA_formula_counterexample :
    ScriptJS.getScoreA 3 1 1 (10 : ℚ) = 4 ∧
    tableA_Lookup.lookup (3, 1, 1) = some 2 := by decide

/-- C2 (amended): in the `src/reba/static/style.css` engine, for every
`(trunk, neck, leg)` triple in the declared domain the Group A score equals
the Table A constant looked up at that triple plus the load correction;
the duplicate `getScoreA` in `src/script.js` instead computes
`min(trunk+neck+leg-2, 8)` and deviates from the table. -/
theorem getScoreA_eq_tableA (trunk neck leg : ℤ) (loadKg : ℚ)
    (ht1 : 1 ≤ trunk) (ht5 : trunk ≤ 5) (hn1 : 1 ≤ neck) (hn3 : neck ≤ 3)
    (hl1 : 1 ≤ leg) (hl4 : leg ≤ 4) :
    ∃ v, tableA_Lookup.lookup (trunk, neck, leg) = some v ∧
      getScoreA trunk neck leg loadKg = v + calcLoadScore loadKg := by
  interval_cases trunk <;> interval_cases neck <;> interval_cases leg <;>
    exact ⟨_, rfl, rfl⟩

/-- Witness for C2's amended theorem at the in-domain triple `(3,1,1)`. -/
theorem getScoreA_eq_tableA_witness :
    ∃ v, tableA_Lookup.lookup ((3 : ℤ), (1 : ℤ), (1 : ℤ)) = some v ∧
      getScoreA 3 1 1 (7 : ℚ) = v + calcLoadScore (7 : ℚ) :=
  getScoreA_eq_tableA 3 1 1 7 (by decide) (by decide) (by decide) (by decide)
    (by decide) (by decide)

/-- C3 counterexample: in `src/script.js` the inline load correction tests
equality with 5 and 10, so a 3 kg load contributes 2 points (total 3 at the
`(1,1,1)` triple, whose base is 1), not the claim's 0 — a 3 kg load is even
scored worse than a 5 kg load there. -/
theorem scriptGetScoreA_load3_counterexample :
    ScriptJS.getScoreA 1 1 1 (3 : ℚ) = 3 ∧ ScriptJS.getScoreA 1 1 1 (5 : ℚ) = 1 := by
  decide

/-- C3 (amended): `calcLoadScore`, the load correction added into the Group A
score by the `style.css` engine, is 0 below 5 kg, 1 for 5–10 kg and 2 above
10 kg (a 3 kg load contributes 0); the `src/script.js` `getScoreA` instead
adds 0 only when the load equals 5, 1 only when it equals 10, and 2
otherwise. -/
theorem calcLoadScore_thresholds (loadKg : ℚ) :
    (loadKg < 5 → calcLoadScore loadKg = 0) ∧
    (5 ≤ loadKg → loadKg ≤ 10 → calcLoadScore loadKg = 1) ∧
    (10 < loadKg → calcLoadScore loadKg = 2) ∧
    calcLoadScore (3 : ℚ) = 0 ∧
    (∀ trunk neck leg : ℤ, getScoreA trunk neck leg loadKg =
        (tableA_Lookup.lookup (trunk, neck, leg)).getD 1 + calcLoadScore loadKg) := by
  refine ⟨?_, ?_, ?_, by decide, fun _ _ _ => rfl⟩
  · intro h
    simp only [calcLoadScore, if_pos h]
  · intro h5 h10
    simp only [calcLoadScore, if_neg (not_lt.mpr h5), if_pos h10]
  · intro h
    have h5 : ¬ loadKg < 5 := by linarith
    have h10 : ¬ loadKg ≤ 10 := by linarith
    simp only [calcLoadScore, if_neg h5, if_neg h10]

/-- Witness for C3's amended theorem at 3 kg, 7 kg and 12 kg. -/
theorem calcLoadScore_thresholds_witness :
    calcLoadScore (3 : ℚ) = 0 ∧ calcLoadScore (7 : ℚ) = 1 ∧ calcLoadScore (12 : ℚ) = 2 :=
  ⟨(calcLoadScore_thresholds 3).1 (by norm_num),
   (calcLoadScore_thresholds 7).2.1 (by norm_num) (by norm_num),
   (calcLoadScore_thresholds 12).2.2.1 (by norm_num)⟩

/-- C4 counterexample: at the out-of-range pair `(13, 1)` the code returns
the constant fallback 1, whereas the nearest defined edge `(12, 1)` holds
the value 12 — out-of-range indices are not clamped to the nearest edge. -/
theorem getTableCScore_fallback_counterexample :
    getTableCScore 13 1 = 1 ∧ getTableCScore 12 1 = 12 := by decide

set_option maxRecDepth 8000 in
/-- C4 (amended): for every pair inside the table's defined 12×12 range,
`getTableCScore` returns the table value; for every pair outside the
defined range it returns the constant fallback 1 (it does not fault, but it
also does not clamp to the nearest defined edge). -/
theorem getTableCScore_total (scoreA scoreB : ℤ) :
    (1 ≤ scoreA → scoreA ≤ 12 → 1 ≤ scoreB → scoreB ≤ 12 →
      ∃ v, tableC_Lookup.lookup (scoreA, scoreB) = some v ∧
        getTableCScore scoreA scoreB = v) ∧
    (scoreA < 1 ∨ 12 < scoreA ∨ scoreB < 1 ∨ 12 < scoreB →
      getTableCScore scoreA scoreB = 1) := by
  constructor
  · intro h1 h2 h3 h4
    interval_cases scoreA <;> interval_cases scoreB <;> exact ⟨_, rfl, rfl⟩
  · intro h
    have hall : ∀ p ∈ tableC_Lookup,
        1 ≤ p.1.1 ∧ p.1.1 ≤ 12 ∧ 1 ≤ p.1.2 ∧ p.1.2 ≤ 12 := by decide
    have hnone : tableC_Lookup.lookup (scoreA, scoreB) = none := by
      rw [List.lookup_eq_none_iff]
      intro p hp
      have hb := hall p hp
      rw [bne_iff_ne]
      intro heq
      rw [← heq] at hb
      simp only at hb
      omega
    simp [getTableCScore, hnone]

/-- Witness for C4's amended theorem: inside the range at `(5, 5)` the table
value 6 is returned; outside at `(13, 1)` the fallback 1 is returned. -/
theorem getTableCScore_total_witness :
    (∃ v, tableC_Lookup.lookup ((5 : ℤ), (5 : ℤ)) = some v ∧ getTableCScore 5 5 = v) ∧
    getTableCScore 13 2 = 1 :=
  ⟨(getTableCScore_total 5 5).1 (by decide) (by decide) (by decide) (by decide),
   (getTableCScore_total 13 2).2 (by omega)⟩

/-- C5: for every final score in `1..15`, both risk-classification functions
map 1 to Negligible, 2–3 to Low, 4–7 to Medium, 8–10 to High and 11–15 to
Very High, with all boundary values inclusive. -/
theorem riskLevel_boundaries (score : ℤ) (h1 : 1 ≤ score) (h15 : score ≤ 15) :
    (score = 1 →
      getRiskLevel score = "無視できる" ∧
      getRiskLevelText score = "無視できる (Negligible)") ∧
    (2 ≤ score → score ≤ 3 →
      getRiskLevel score = "低リスク" ∧ getRiskLevelText score = "低リスク (Low)") ∧
    (4 ≤ score → score ≤ 7 →
      getRiskLevel score = "中リスク" ∧ getRiskLevelText score = "中リスク (Medium)") ∧
    (8 ≤ score → score ≤ 10 →
      getRiskLevel score = "高リスク" ∧ getRiskLevelText score = "高リスク (High)") ∧
    (11 ≤ score →
      getRiskLevel score = "非常に高リスク" ∧
      getRiskLevelText score = "非常に高リスク (Very High)") := by
  interval_cases score <;> decide

/-- Witness for C5 at the boundary values 1, 2, 8 and 11. -/
theorem riskLevel_boundaries_witness :
    (getRiskLevel 1 = "無視できる" ∧ getRiskLevelText 1 = "無視できる (Negligible)") ∧
    (getRiskLevel 2 = "低リスク" ∧ getRiskLevelText 2 = "低リスク (Low)") ∧
    (getRiskLevel 8 = "高リスク" ∧ getRiskLevelText 8 = "高リスク (High)") ∧
    (getRiskLevel 11 = "非常に高リスク" ∧
      getRiskLevelText 11 = "非常に高リスク (Very High)") :=
  ⟨(riskLevel_boundaries 1 (by decide) (by decide)).1 rfl,
   (riskLevel_boundaries 2 (by decide) (by decide)).2.1 (by decide) (by decide),
   (riskLevel_boundaries 8 (by decide) (by decide)).2.2.2.1 (by decide) (by decide),
   (riskLevel_boundaries 11 (by decide) (by decide)).2.2.2.2 (by decide)⟩

/-- C6: if any required landmark index (the fifteen indices 0, 11–16, 19,
20, 23–28 — in particular 15, the left wrist) is missing, `computeAllAngles`
returns `none` instead of a joint-angle record, and the per-tick caller
emits no score/risk result for that tick (it only logs a warning), without
crashing. -/
theorem computeAllAngles_missing_landmark (landmarks : ℕ → Option Pt)
    (filmingSide : String) (calibInputs : CalibInputs ℝ) (idx : ℕ)
    (hidx : idx ∈ requiredLandmarks) (hmiss : landmarks idx = none) :
    computeAllAngles landmarks filmingSide = none ∧
    processLandmarkSet landmarks calibInputs = none := by
  have hfail : ¬ (requiredLandmarks.all fun i => (landmarks i).isSome) = true := by
    rw [List.all_eq_true]
    intro hcontra
    have h := hcontra idx hidx
    rw [hmiss] at h
    simp at h
  have hnone : ∀ side, computeAllAngles landmarks side = none := by
    intro side
    unfold computeAllAngles
    rw [if_neg hfail]
  refine ⟨hnone filmingSide, ?_⟩
  unfold processLandmarkSet
  rw [hnone calibInputs.filmingSide]

/-- A landmark set missing exactly index 15 (the left wrist). -/
def missingWristLandmarks : ℕ → Option Pt :=
  fun idx => if idx = 15 then none else some ⟨0, 0, 0⟩

/-- Concrete calibration inputs over `ℝ` for the missing-landmark witness. -/
def wCalibR : CalibInputs ℝ :=
  { filmingSide := "left", neckRotation := 0, neckLateralBending := 0,
    trunkLateralFlexion := 0, loadForce := 0, postureCategory := "standingBoth",
    upperArmCorrection := 0, shoulderElevation := 0, gravityAssist := 0,
    wristCorrection := 0, staticPosture := 0, repetitiveMovement := 0,
    unstableMovement := 0, coupling := 0 }

/-- Witness for C6: with index 15 missing, angle extraction reports failure
and no score is emitted for the tick. -/
theorem computeAllAngles_missing_landmark_witness :
    computeAllAngles missingWristLandmarks "left" = none ∧
    processLandmarkSet missingWristLandmarks wCalibR = none :=
  computeAllAngles_missing_landmark missingWristLandmarks "left" wCalibR 15
    (by decide) rfl

/-- C7: the leg sub-score is 1 whenever the posture category is
sitting-or-walking, regardless of the knee angle; otherwise the base is 1
for standing on both legs and 2 for any other (one-leg) category, plus 1
extra point for average knee flexion in 30–60° and 2 extra points above
60°; and `evaluateLeg` feeds the average of the two knee angles into
`calcLegScoreUnified`. -/
theorem legScore_spec (α : Type) [LinearOrderedField α] :
    (∀ kneeFlexAngle : α, calcLegScoreUnified "sittingWalking" kneeFlexAngle = 1) ∧
    (∀ kneeFlexAngle : α, calcLegScoreUnified "standingBoth" kneeFlexAngle =
      1 + (if kneeFlexAngle ≥ 30 ∧ kneeFlexAngle ≤ 60 then 1
           else if kneeFlexAngle > 60 then 2 else 0)) ∧
    (∀ (postureCategory : String) (kneeFlexAngle : α),
      postureCategory ≠ "sittingWalking" → postureCategory ≠ "standingBoth" →
      calcLegScoreUnified postureCategory kneeFlexAngle =
        2 + (if kneeFlexAngle ≥ 30 ∧ kneeFlexAngle ≤ 60 then 1
             else if kneeFlexAngle > 60 then 2 else 0)) ∧
    (∀ (a : ComputedAngles α) (c : CalibInputs α),
      evaluateLeg a c =
        calcLegScoreUnified c.postureCategory
          ((a.leftKneeAngle + a.rightKneeAngle) / 2)) := by
  refine ⟨fun k => ?_, fun k => ?_, fun cat k h1 h2 => ?_, fun a c => rfl⟩
  · rw [calcLegScoreUnified, if_pos rfl]
  · rw [calcLegScoreUnified, if_neg (by decide), if_pos rfl]
  · rw [calcLegScoreUnified, if_neg h1, if_neg h2]

/-- Witness for C7: sitting-or-walking forces leg sub-score 1 even at a
knee angle of 170°, while a one-leg category at 170° yields 2 + 2 = 4. -/
theorem legScore_spec_witness :
    calcLegScoreUnified "sittingWalking" (170 : ℚ) = 1 ∧
    calcLegScoreUnified "standingOne" (170 : ℚ) = 4 := by
  refine ⟨(legScore_spec ℚ).1 170, ?_⟩
  rw [(legScore_spec ℚ).2.2.1 "standingOne" 170 (by decide) (by decide)]
  norm_num

/-- C8: the trunk sub-score base is 1 at exactly 0° of flexion, 2 up to
20°, 3 up to 60° and 4 beyond, and exactly one additional point is added
when the rotation flag (trunk-rotation magnitude at least 10°) or the
lateral-flexion flag (positive `trunkLateralFlexion` input) holds. -/
theorem trunkScore_spec (α : Type) [LinearOrderedField α] :
    (∀ (x : α) (r s : Bool), calcTrunkScore x r s =
      calcTrunkScore x false false + (if r || s then 1 else 0)) ∧
    (∀ x : α, x = 0 → calcTrunkScore x false false = 1) ∧
    (∀ x : α, x ≠ 0 → x ≤ 20 → calcTrunkScore x false false = 2) ∧
    (∀ x : α, ¬ x ≤ 20 → x ≤ 60 → calcTrunkScore x false false = 3) ∧
    (∀ x : α, ¬ x ≤ 60 → calcTrunkScore x false false = 4) ∧
    (∀ (a : ComputedAngles α) (c : CalibInputs α),
      evaluateTrunk a c = calcTrunkScore a.trunkFlexionAngle
        (decide (10 ≤ |a.trunkRotationAngle|)) (decide (0 < c.trunkLateralFlexion))) := by
  refine ⟨fun x r s => ?_, fun x hx => ?_, fun x hx h20 => ?_,
    fun x h20 h60 => ?_, fun x h60 => ?_, fun a c => rfl⟩
  · unfold calcTrunkScore
    cases r <;> cases s <;> simp
  · rw [calcTrunkScore, if_pos hx]
    simp
  · rw [calcTrunkScore, if_neg hx, if_pos h20]
    simp
  · have hx : x ≠ 0 := fun h0 => h20 (by rw [h0]; norm_num)
    rw [calcTrunkScore, if_neg hx, if_neg h20, if_pos h60]
    simp
  · have h20 : ¬ x ≤ 20 := fun h => h60 (by linarith)
    have hx : x ≠ 0 := fun h0 => h20 (by rw [h0]; norm_num)
    rw [calcTrunkScore, if_neg hx, if_neg h20, if_neg h60]
    simp

/-- Witness for C8: trunk flexion 15° without flags scores 2; the same
angle with the rotation flag set scores 3. -/
theorem trunkScore_spec_witness :
    calcTrunkScore (15 : ℚ) false false = 2 ∧ calcTrunkScore (15 : ℚ) true false = 3 := by
  have h2 := (trunkScore_spec ℚ).2.2.1 15 (by norm_num) (by norm_num)
  refine ⟨h2, ?_⟩
  rw [(trunkScore_spec ℚ).1 15 true false, h2]
  decide

/-- C9: within a session the tracked maximum (`maxRebaScore`) is
non-decreasing across every sequence of received final scores, it is
replaced only when a new final score strictly exceeds it, and a session
(re)start resets it to exactly 0. -/
theorem sessionTracker_monotone :
    (∀ (st : SessionTracker.SessionState) (s : ℤ),
      st.maxRebaScore ≤ (SessionTracker.receiveFinalScore st s).maxRebaScore) ∧
    (∀ (st : SessionTracker.SessionState) (scores : List ℤ),
      st.maxRebaScore ≤
        (scores.foldl SessionTracker.receiveFinalScore st).maxRebaScore) ∧
    (∀ (st : SessionTracker.SessionState) (s : ℤ),
      s ≤ st.maxRebaScore → SessionTracker.receiveFinalScore st s = st) ∧
    (∀ (st : SessionTracker.SessionState) (s : ℤ),
      st.maxRebaScore < s → (SessionTracker.receiveFinalScore st s).maxRebaScore = s) ∧
    (∀ st : SessionTracker.SessionState, st.webcamRunning = false →
      (SessionTracker.webcamButtonClick st).maxRebaScore = 0 ∧
      (SessionTracker.webcamButtonClick st).webcamRunning = true) := by
  have hstep : ∀ (st : SessionTracker.SessionState) (s : ℤ),
      st.maxRebaScore ≤ (SessionTracker.receiveFinalScore st s).maxRebaScore := by
    intro st s
    unfold SessionTracker.receiveFinalScore
    split_ifs with h
    · simp only
      omega
    · exact le_refl _
  refine ⟨hstep, ?_, ?_, ?_, ?_⟩
  · intro st scores
    induction scores generalizing st with
    | nil => exact le_refl _
    | cons s rest ih =>
        exact le_trans (hstep st s) (ih (SessionTracker.receiveFinalScore st s))
  · intro st s h
    unfold SessionTracker.receiveFinalScore
    rw [if_neg (by omega)]
  · intro st s h
    unfold SessionTracker.receiveFinalScore
    rw [if_pos (by omega)]
  · intro st h
    unfold SessionTracker.webcamButtonClick
    rw [h]
    exact ⟨rfl, rfl⟩

/-- Witness for C9: a lower score (5) leaves the maximum 7 unchanged, a
higher score (9) replaces it, and a session start from the stopped state
resets the maximum to 0. -/
theorem sessionTracker_monotone_witness :
    SessionTracker.receiveFinalScore ⟨true, 7⟩ 5 = ⟨true, 7⟩ ∧
    (SessionTracker.receiveFinalScore ⟨true, 7⟩ 9).maxRebaScore = 9 ∧
    (SessionTracker.webcamButtonClick ⟨false, 7⟩).maxRebaScore = 0 :=
  ⟨sessionTracker_monotone.2.2.1 ⟨true, 7⟩ 5 (by decide),
   sessionTracker_monotone.2.2.2.1 ⟨true, 7⟩ 9 (by decide),
   (sessionTracker_monotone.2.2.2.2 ⟨false, 7⟩ rfl).1⟩

/-- C10: `calibrateREBAAngles` copies every angle field other than the two
knee angles unchanged, and the knee angles themselves change only when the
posture category is a sitting/walking value (this holds for both the
`style.css` variant, keyed on `postureCategory = "sittingWalking"`, and the
`src/script.js` variant, keyed on `postureType ∈ {"sitting", "walking"}`). -/
theorem calibrateREBAAngles_frame (a : ComputedAngles ℚ) (c : CalibInputs ℚ)
    (c2 : ScriptJS.CalibInputs ℚ) :
    ((calibrateREBAAngles a c).neckAngle = a.neckAngle ∧
     (calibrateREBAAngles a c).trunkFlexionAngle = a.trunkFlexionAngle ∧
     (calibrateREBAAngles a c).trunkRotationAngle = a.trunkRotationAngle ∧
     (calibrateREBAAngles a c).leftShoulderAngle = a.leftShoulderAngle ∧
     (calibrateREBAAngles a c).rightShoulderAngle = a.rightShoulderAngle ∧
     (calibrateREBAAngles a c).leftElbowAngle = a.leftElbowAngle ∧
     (calibrateREBAAngles a c).rightElbowAngle = a.rightElbowAngle ∧
     (calibrateREBAAngles a c).leftWristAngle = a.leftWristAngle ∧
     (calibrateREBAAngles a c).rightWristAngle = a.rightWristAngle) ∧
    (c.postureCategory ≠ "sittingWalking" →
      (calibrateREBAAngles a c).leftKneeAngle = a.leftKneeAngle ∧
      (calibrateREBAAngles a c).rightKneeAngle = a.rightKneeAngle) ∧
    (c.postureCategory = "sittingWalking" →
      (calibrateREBAAngles a c).leftKneeAngle = 1 ∧
      (calibrateREBAAngles a c).rightKneeAngle = 1) ∧
    ((ScriptJS.calibrateREBAAngles a c2).neckAngle = a.neckAngle ∧
     (ScriptJS.calibrateREBAAngles a c2).trunkFlexionAngle = a.trunkFlexionAngle ∧
     (ScriptJS.calibrateREBAAngles a c2).trunkRotationAngle = a.trunkRotationAngle ∧
     (ScriptJS.calibrateREBAAngles a c2).leftShoulderAngle = a.leftShoulderAngle ∧
     (ScriptJS.calibrateREBAAngles a c2).rightShoulderAngle = a.rightShoulderAngle ∧
     (ScriptJS.calibrateREBAAngles a c2).leftElbowAngle = a.leftElbowAngle ∧
     (ScriptJS.calibrateREBAAngles a c2).rightElbowAngle = a.rightElbowAngle ∧
     (ScriptJS.calibrateREBAAngles a c2).leftWristAngle = a.leftWristAngle ∧
     (ScriptJS.calibrateREBAAngles a c2).rightWristAngle = a.rightWristAngle) ∧
    (c2.postureType ≠ "sitting" → c2.postureType ≠ "walking" →
      (ScriptJS.calibrateREBAAngles a c2).leftKneeAngle = a.leftKneeAngle ∧
      (ScriptJS.calibrateREBAAngles a c2).rightKneeAngle = a.rightKneeAngle) := by
  refine ⟨⟨rfl, rfl, rfl, rfl, rfl, rfl, rfl, rfl, rfl⟩, fun h => ?_, fun h => ?_,
    ⟨rfl, rfl, rfl, rfl, rfl, rfl, rfl, rfl, rfl⟩, fun h1 h2 => ?_⟩
  · unfold calibrateREBAAngles
    rw [if_neg h, if_neg h]
    exact ⟨rfl, rfl⟩
  · unfold calibrateREBAAngles
    rw [if_pos h, if_pos h]
    exact ⟨rfl, rfl⟩
  · unfold ScriptJS.calibrateREBAAngles
    rw [if_neg (not_or.mpr ⟨h1, h2⟩), if_neg (not_or.mpr ⟨h1, h2⟩)]
    exact ⟨rfl, rfl⟩

/-- Concrete angle record with 170° knee angles for the frame witness. -/
def wAnglesKnee : ComputedAngles ℚ :=
  { neckAngle := 5, trunkFlexionAngle := 10, trunkRotationAngle := 3,
    leftShoulderAngle := 20, rightShoulderAngle := 25, leftElbowAngle := 80,
    rightElbowAngle := 85, leftWristAngle := 10, rightWristAngle := 12,
    leftKneeAngle := 170, rightKneeAngle := 165 }

/-- A script.js-shaped calibration record with a standing posture type. -/
def wCalibScript : ScriptJS.CalibInputs ℚ :=
  { filmingSide := "left", neckRotation := 0, neckLateralBending := 0,
    trunkLateralFlexion := 0, loadForce := 0, weightBearing := "both",
    upperArmCorrection := 0, shoulderElevation := 0, gravityAssist := 0,
    wristCorrection := 0, staticPosture := 0, repetitiveMovement := 0,
    unstableMovement := 0, postureType := "standing" }

/-- Witness for C10: with a non-sitting/walking posture the knee angles
pass through unchanged, and the neck angle is always preserved. -/
theorem calibrateREBAAngles_frame_witness :
    (ScriptJS.calibrateREBAAngles wAnglesKnee wCalibScript).leftKneeAngle = 170 ∧
    (calibrateREBAAngles wAnglesKnee wCalibBig).neckAngle = 5 :=
  ⟨((calibrateREBAAngles_frame wAnglesKnee wCalibBig wCalibScript).2.2.2.2
      (by decide) (by decide)).1,
   (calibrateREBAAngles_frame wAnglesKnee wCalibBig wCalibScript).1.1⟩

end REBA
